import Mathlib

/-!
Verification of the Variant marshalling core of
`godot-core/src/builtin/variant/impls.rs`: the per-type conversion protocol
generated by the `impl_ffi_variant!` macro, the explicit impls for the unit
type and for `Variant` itself (the wildcard conversion), the by-value /
by-reference registration table, and the wildcard property descriptor.

The Variant container, the error types and the engine's native conversion
function table live outside the given source file; they are modelled from the
specification where needed, each such definition marked in its doc comment.
-/

namespace GodotVariant

/-- Modelled from the spec: the engine's type-tag enumeration (`VariantType`),
one discriminant per supported kind, including a NIL tag.  The non-nil tags
are exactly the designated tags of the types registered in `mod impls`. -/
inductive VariantType where
  | nil
  | bool
  | int
  | float
  | string
  | vector2
  | vector3
  | vector4
  | vector2i
  | vector3i
  | vector4i
  | quaternion
  | transform2d
  | transform3d
  | basis
  | projection
  | plane
  | rect2
  | rect2i
  | aabb
  | color
  | rid
  | stringName
  | nodePath
  | dictionary
  | packedByteArray
  | packedInt32Array
  | packedInt64Array
  | packedFloat32Array
  | packedFloat64Array
  | packedStringArray
  | packedVector2Array
  | packedVector3Array
  | packedVector4Array
  | packedColorArray
  | signal
  | callable
deriving DecidableEq

/-- Modelled from the spec: the storage held by a Variant for a given tag.
NIL holds nothing; the scalar kinds hold their value; the remaining
(engine-internal) kinds hold opaque engine-side bytes, since the container
types' internal storage is out of scope for this core. -/
def VariantType.Storage : VariantType → Type
  | .nil => Unit
  | .bool => Bool
  | .int => Int
  | .string => String
  | _ => List Nat

/-- Modelled from the spec: the Variant container, a tagged union whose
`type_tag` always matches the active storage variant (the invariant holds by
construction here: the storage type is indexed by the tag). -/
structure Variant where
  tag : VariantType
  storage : tag.Storage

/-- `Variant::get_type`: the current type tag.  (External accessor, modelled
from the spec.) -/
def Variant.get_type (v : Variant) : VariantType := v.tag

/-- Modelled from the spec: cloning produces an independent Variant whose
storage is an independent (deep) copy; in this pure embedding the clone is
the equal value. -/
def Variant.clone (v : Variant) : Variant := v

/-- `Variant::nil()`: construct the empty/nil Variant.  (Modelled from the
spec.) -/
def Variant.nil_variant : Variant := ⟨.nil, ()⟩

/-- `Variant::is_nil`.  Modelled from the spec: a Variant is nil when its tag
is the NIL tag. -/
def Variant.is_nil (v : Variant) : Bool := v.get_type = VariantType.nil

/-- Modelled from the spec: `FromVariantError::BadType` — the decode-time
error payload carrying the expected and the actually observed type tag
(`crate::meta::error` is not part of the given source). -/
structure FromVariantError where
  expected : VariantType
  actual : VariantType

/-- Modelled from the spec: `ConvertError` — the single error kind surfaced
by this core: a type mismatch carrying the expected tag, the actual tag and
a copy of the offending Variant for diagnostics. -/
structure ConvertError where
  kind : FromVariantError
  value : Variant

/-- `FromVariantError::into_error(variant)`: wrap the mismatch data together
with the offending Variant.  (Modelled from the spec.) -/
def FromVariantError.into_error (e : FromVariantError) (v : Variant) : ConvertError :=
  ⟨e, v⟩

/-- Modelled from the spec: one entry of the engine's native conversion
function table — the per-type pair `(to_variant, from_variant)` of trusted
native functions.  `toVariantFn` is the `$from_fn` argument of
`impl_ffi_variant!` (writes a Variant from a typed value); `fromVariantFn`
is the `$to_fn` argument (writes a typed value from a Variant). -/
structure NativePair (α : Type) where
  toVariantFn : α → Variant
  fromVariantFn : Variant → α

/-- Modelled from the spec: the documented trust boundary with the engine
(§7).  The native pair of a type with designated tag `tag` always produces a
Variant of that tag, fully and correctly initializes its output, and
faithfully converts in both directions: decoding an encoded value restores
it, and re-encoding a value decoded from a Variant of the matching tag
restores the Variant. -/
structure NativePairSpec (tag : VariantType) (p : NativePair α) : Prop where
  encode_tag : ∀ v : α, (p.toVariantFn v).get_type = tag
  decode_encode : ∀ v : α, p.fromVariantFn (p.toVariantFn v) = v
  encode_decode : ∀ w : Variant, w.get_type = tag → p.toVariantFn (p.fromVariantFn w) = w

/-! The code generated by `impl_ffi_variant!(@impls ...)` for a registered
type `T` with designated tag `Self::VARIANT_TYPE` and native pair
`($from_fn, $to_fn)`.  The macro is embedded as functions parameterized by
the tag and the native pair. -/

namespace MacroImpl

/-- `ffi_to_variant` (macro-generated): constructs a Variant into an
uninitialized buffer by invoking the type's native `to_variant` function on
the value. -/
def ffi_to_variant (p : NativePair α) (v : α) : Variant :=
  p.toVariantFn v

/-- `ffi_from_variant` (macro-generated): strict tag check against
`Self::VARIANT_TYPE`; on mismatch returns
`FromVariantError::BadType { expected, actual }.into_error(variant.clone())`;
on match invokes the native `from_variant` function into an uninitialized
typed buffer and returns the constructed value. -/
def ffi_from_variant (tag : VariantType) (p : NativePair α) (variant : Variant) :
    Except ConvertError α :=
  if variant.get_type ≠ tag then
    .error ((FromVariantError.mk tag variant.get_type).into_error variant.clone)
  else
    .ok (p.fromVariantFn variant)

/-- `into_ffi` (macro-generated): the identity. -/
def into_ffi (v : α) : α := v

/-- `try_from_ffi` (macro-generated): always `Ok`. -/
def try_from_ffi (v : α) : Except ConvertError α := .ok v

end MacroImpl

/-! Concrete instantiations of the native pairs for the scalar kinds whose
storage is concrete in this embedding; they serve as evaluation points. -/

/-- Modelled from the spec: the native `(bool_to_variant, bool_from_variant)`
pair.  The fallback branch of the decoder models reading a buffer that the
conversion protocol never lets it see (the tag check rejects it first). -/
def boolPair : NativePair Bool where
  toVariantFn := fun b => ⟨.bool, b⟩
  fromVariantFn := fun w =>
    match w with
    | ⟨.bool, b⟩ => b
    | _ => false

/-- Modelled from the spec: the native `(int_to_variant, int_from_variant)`
pair for `i64`. -/
def intPair : NativePair Int where
  toVariantFn := fun n => ⟨.int, n⟩
  fromVariantFn := fun w =>
    match w with
    | ⟨.int, n⟩ => n
    | _ => 0

theorem boolPair_spec : NativePairSpec .bool boolPair := by
  refine ⟨fun v => rfl, fun v => rfl, fun w hw => ?_⟩
  obtain ⟨t, s⟩ := w
  cases t <;> simp_all [Variant.get_type, boolPair]

theorem intPair_spec : NativePairSpec .int intPair := by
  refine ⟨fun v => rfl, fun v => rfl, fun w hw => ?_⟩
  obtain ⟨t, s⟩ := w
  cases t <;> simp_all [Variant.get_type, intPair]

/-! The `to_ffi` side of the macro: the passing-convention registry.  The
macro's `@assoc_to_ffi by_val` arm sets `ToFfi = Self` and `to_ffi` to
`self.clone()`; the `@assoc_to_ffi by_ref` arm sets `ToFfi = RefArg` and
`to_ffi` to `RefArg::new(self)`. -/

/-- The two passing conventions selected by the presence or absence of `ref`
in an `impl_ffi_variant!` invocation. -/
inductive ArgPassing where
  | byValue
  | byRef
deriving DecidableEq, BEq

/-- The shape of a `to_ffi` result.  `cloned` models `self.clone()`: an
independent copy sharing no storage with the original.  `refArg` models
`RefArg::new(self)`: a borrowing wrapper around the existing value that
allocates no new backing storage. -/
inductive ToFfiRepr (α : Type) where
  | cloned (value : α)
  | refArg (borrowed : α)
deriving DecidableEq

namespace MacroImpl

/-- `to_ffi` (macro-generated): `self.clone()` for the by-value arm,
`RefArg::new(self)` for the by-ref arm. -/
def to_ffi (conv : ArgPassing) (v : α) : ToFfiRepr α :=
  match conv with
  | .byValue => .cloned v
  | .byRef => .refArg v

end MacroImpl

/-- The registration table of `mod impls`: every `impl_ffi_variant!`
invocation, in source order, with its passing convention (`ref` present =
by-reference).  `PackedVector4Array` is gated on engine API ≥ 4.3 in the
source and is included here. -/
def registered_types : List (String × ArgPassing) :=
  [ ("bool", .byValue)
  , ("i64", .byValue)
  , ("f64", .byValue)
  , ("Vector2", .byValue)
  , ("Vector3", .byValue)
  , ("Vector4", .byValue)
  , ("Vector2i", .byValue)
  , ("Vector3i", .byValue)
  , ("Vector4i", .byValue)
  , ("Quaternion", .byValue)
  , ("Transform2D", .byValue)
  , ("Transform3D", .byValue)
  , ("Basis", .byValue)
  , ("Projection", .byValue)
  , ("Plane", .byValue)
  , ("Rect2", .byValue)
  , ("Rect2i", .byValue)
  , ("Aabb", .byValue)
  , ("Color", .byValue)
  , ("Rid", .byValue)
  , ("GString", .byRef)
  , ("StringName", .byRef)
  , ("NodePath", .byRef)
  , ("Dictionary", .byRef)
  , ("PackedByteArray", .byRef)
  , ("PackedInt32Array", .byRef)
  , ("PackedInt64Array", .byRef)
  , ("PackedFloat32Array", .byRef)
  , ("PackedFloat64Array", .byRef)
  , ("PackedStringArray", .byRef)
  , ("PackedVector2Array", .byRef)
  , ("PackedVector3Array", .byRef)
  , ("PackedVector4Array", .byRef)
  , ("PackedColorArray", .byRef)
  , ("Signal", .byRef)
  , ("Callable", .byRef)
  ]

/-! The explicit impls: the unit type and the wildcard (Variant). -/

namespace UnitImpl

/-- `<() as GodotFfiVariant>::ffi_to_variant`: always `Variant::nil()`. -/
def ffi_to_variant (_ : Unit) : Variant := Variant.nil_variant

/-- `<() as GodotFfiVariant>::ffi_from_variant`: `Ok(())` when the input is
nil, otherwise `BadType { expected: NIL, actual }` with a clone of the
input. -/
def ffi_from_variant (variant : Variant) : Except ConvertError Unit :=
  if variant.is_nil then
    .ok ()
  else
    .error ((FromVariantError.mk .nil variant.get_type).into_error variant.clone)

/-- `<() as GodotType>::to_ffi`: the unit value. -/
def to_ffi (_ : Unit) : Unit := ()

/-- `<() as GodotType>::into_ffi`: the unit value. -/
def into_ffi (_ : Unit) : Unit := ()

/-- `<() as GodotType>::try_from_ffi`: always `Ok(())`. -/
def try_from_ffi (_ : Unit) : Except ConvertError Unit := .ok ()

/-- `<() as GodotType>::godot_type_name`: the string `"Variant"`. -/
def godot_type_name : String := "Variant"

end UnitImpl

namespace VariantImpl

/-- `<Variant as GodotFfiVariant>::ffi_to_variant`: `self.clone()`. -/
def ffi_to_variant (v : Variant) : Variant := v.clone

/-- `<Variant as GodotFfiVariant>::ffi_from_variant`: always
`Ok(variant.clone())`, with no tag check. -/
def ffi_from_variant (variant : Variant) : Except ConvertError Variant :=
  .ok variant.clone

/-- `<Variant as GodotType>::to_ffi`: `RefArg::new(self)`, a borrow. -/
def to_ffi (v : Variant) : ToFfiRepr Variant := .refArg v

/-- `<Variant as GodotType>::into_ffi`: the identity. -/
def into_ffi (v : Variant) : Variant := v

/-- `<Variant as GodotType>::try_from_ffi`: always `Ok`. -/
def try_from_ffi (v : Variant) : Except ConvertError Variant := .ok v

/-- `<Variant as GodotType>::godot_type_name`: the string `"Variant"`. -/
def godot_type_name : String := "Variant"

end VariantImpl

/-! The property descriptor.  `PropertyInfo`, `PropertyHintInfo` and the
usage-flag enumeration live outside the given source file. -/

/-- Modelled from the spec: hint metadata of a property descriptor;
`PropertyHintInfo::none()` is the default (no hint, empty hint string). -/
structure PropertyHintInfo where
  hint : Nat
  hint_string : String
deriving DecidableEq

/-- `PropertyHintInfo::none()`. -/
def PropertyHintInfo.no_hint : PropertyHintInfo := ⟨0, ""⟩

/-- Modelled from the spec: the engine's property-usage bitflags.
`DEFAULT` is the default usage; `NIL_IS_VARIANT` is the distinct
"nil is an acceptable value" bit. -/
def PropertyUsageFlags.DEFAULT : Nat := 6

/-- Modelled from the spec: the "nil is an acceptable value" usage bit,
disjoint from the bits of `DEFAULT`. -/
def PropertyUsageFlags.NIL_IS_VARIANT : Nat := 131072

/-- Modelled from the spec: the property descriptor record handed to the
reflection system: type tag, class/name identifier (empty for non-object
types), property name, hint metadata and usage flags. -/
structure PropertyInfo where
  variant_type : VariantType
  class_name : String
  property_name : String
  hint_info : PropertyHintInfo
  usage : Nat
deriving DecidableEq

/-- Modelled from the spec: the wildcard type's designated tag
(`<Variant as GodotFfi>::VARIANT_TYPE`, defined outside this file): the NIL
tag, matching the nil-is-acceptable wildcard semantics. -/
def variantSelfVariantType : VariantType := .nil

/-- Modelled from the spec: `<Variant as GodotType>::class_name()` — empty
for non-object types. -/
def variantSelfClassName : String := ""

/-- `<Variant as GodotType>::property_info`: descriptor with the wildcard's
designated tag, its class name, the given property name, no hint, and usage
`DEFAULT | NIL_IS_VARIANT`. -/
def Variant.property_info (property_name : String) : PropertyInfo :=
  { variant_type := variantSelfVariantType
  , class_name := variantSelfClassName
  , property_name := property_name
  , hint_info := PropertyHintInfo.no_hint
  , usage := PropertyUsageFlags.DEFAULT ||| PropertyUsageFlags.NIL_IS_VARIANT
  }

/-- Modelled from the spec: the default `property_info` used by typed slots
(the `GodotType` trait default, not overridden by any macro-registered type
in this file): the type's designated tag, its class name, the given name,
no hint, and plain default usage — no nil-acceptance flag. -/
def GodotType.default_property_info (tag : VariantType) (class_name : String)
    (property_name : String) : PropertyInfo :=
  { variant_type := tag
  , class_name := class_name
  , property_name := property_name
  , hint_info := PropertyHintInfo.no_hint
  , usage := PropertyUsageFlags.DEFAULT
  }

/-! Claim theorems. -/

/-- C1: for every supported type registered through the conversion macro and
every value `v`, decoding the Variant produced by encoding `v` succeeds and
yields `v`: `ffi_from_variant (ffi_to_variant v) = Ok v`, given the
spec's trust boundary on the type's native conversion pair. -/
theorem roundtrip_registered (tag : VariantType) (p : NativePair α)
    (h : NativePairSpec tag p) (v : α) :
    MacroImpl.ffi_from_variant tag p (MacroImpl.ffi_to_variant p v) = .ok v := by
  simp [MacroImpl.ffi_from_variant, MacroImpl.ffi_to_variant, h.encode_tag v,
    h.decode_encode v]

theorem roundtrip_registered_witness :
    NativePairSpec .bool boolPair ∧
      MacroImpl.ffi_from_variant .bool boolPair
        (MacroImpl.ffi_to_variant boolPair true) = .ok true :=
  ⟨boolPair_spec, roundtrip_registered .bool boolPair boolPair_spec true⟩

/-- C2: for every registered type, `ffi_from_variant` fails exactly when the
input Variant's tag differs from the type's designated tag (strict equality),
and on failure returns `BadType { expected, actual }` carrying a clone of the
offending Variant; once the tag matches, decoding succeeds with the native
decoder's result. -/
theorem strict_tag_check (tag : VariantType) (p : NativePair α) :
    (∀ w : Variant, w.get_type ≠ tag →
        MacroImpl.ffi_from_variant tag p w =
          .error ((FromVariantError.mk tag w.get_type).into_error w.clone)) ∧
    (∀ w : Variant, w.get_type = tag →
        MacroImpl.ffi_from_variant tag p w = .ok (p.fromVariantFn w)) ∧
    (∀ w : Variant,
        (∃ e, MacroImpl.ffi_from_variant tag p w = .error e) ↔ w.get_type ≠ tag) := by
  refine ⟨fun w hw => ?_, fun w hw => ?_, fun w => ?_⟩
  · simp [MacroImpl.ffi_from_variant, hw]
  · simp [MacroImpl.ffi_from_variant, hw]
  · by_cases hw : w.get_type = tag <;> simp [MacroImpl.ffi_from_variant, hw]

theorem strict_tag_check_witness :
    ((⟨.int, (5 : Int)⟩ : Variant).get_type ≠ .bool ∧
      MacroImpl.ffi_from_variant .bool boolPair ⟨.int, (5 : Int)⟩ =
        .error ((FromVariantError.mk .bool .int).into_error ⟨.int, (5 : Int)⟩)) ∧
    ((⟨.bool, true⟩ : Variant).get_type = .bool ∧
      MacroImpl.ffi_from_variant .bool boolPair ⟨.bool, true⟩ = .ok true) :=
  ⟨⟨by decide, (strict_tag_check .bool boolPair).1 ⟨.int, (5 : Int)⟩ (by decide)⟩,
   ⟨rfl, (strict_tag_check .bool boolPair).2.1 ⟨.bool, true⟩ rfl⟩⟩

/-- C3: the wildcard (Variant-to-Variant) conversion: encode returns a clone
of the input, decode returns `Ok` with a clone of the input for every input
regardless of its tag, decode never fails, and `decode (encode v) = v`. -/
theorem wildcard_conversion (v : Variant) :
    VariantImpl.ffi_to_variant v = v ∧
    VariantImpl.ffi_from_variant v = .ok v ∧
    VariantImpl.ffi_from_variant (VariantImpl.ffi_to_variant v) = .ok v :=
  ⟨rfl, rfl, rfl⟩

/-- C4: the unit type encodes to the nil Variant (whose tag is NIL); decoding
a Variant as unit succeeds exactly when the Variant is nil, and otherwise
fails with `BadType { expected: NIL, actual }` carrying a clone of the
input. -/
theorem unit_nil_contract (v : Variant) :
    UnitImpl.ffi_to_variant () = Variant.nil_variant ∧
    Variant.nil_variant.get_type = .nil ∧
    (v.is_nil = true ↔ v.get_type = .nil) ∧
    (v.get_type = .nil → UnitImpl.ffi_from_variant v = .ok ()) ∧
    (v.get_type ≠ .nil → UnitImpl.ffi_from_variant v =
        .error ((FromVariantError.mk .nil v.get_type).into_error v.clone)) := by
  refine ⟨rfl, rfl, ?_, fun h => ?_, fun h => ?_⟩ <;>
    simp_all [UnitImpl.ffi_from_variant, Variant.is_nil]

theorem unit_nil_contract_witness :
    (Variant.nil_variant.get_type = .nil ∧
      UnitImpl.ffi_from_variant Variant.nil_variant = .ok ()) ∧
    ((⟨.int, (7 : Int)⟩ : Variant).get_type ≠ .nil ∧
      UnitImpl.ffi_from_variant ⟨.int, (7 : Int)⟩ =
        .error ((FromVariantError.mk .nil .int).into_error ⟨.int, (7 : Int)⟩)) :=
  ⟨⟨rfl, (unit_nil_contract Variant.nil_variant).2.2.2.1 rfl⟩,
   ⟨by decide, (unit_nil_contract ⟨.int, (7 : Int)⟩).2.2.2.2 (by decide)⟩⟩

/-- C5: for every registered type, `ffi_to_variant` is total (its type in
this embedding is a plain function into `Variant`, with no error outcome)
and the resulting Variant's tag equals the type's designated tag
`Self::VARIANT_TYPE`, given the spec's trust boundary on the native
encoder. -/
theorem encode_tag_total (tag : VariantType) (p : NativePair α)
    (h : NativePairSpec tag p) (v : α) :
    (MacroImpl.ffi_to_variant p v).get_type = tag :=
  h.encode_tag v

theorem encode_tag_total_witness :
    NativePairSpec .int intPair ∧
      (MacroImpl.ffi_to_variant intPair 42).get_type = .int :=
  ⟨intPair_spec, encode_tag_total .int intPair intPair_spec 42⟩

/-- C6: the registration table passes exactly GString, StringName, NodePath,
Dictionary, the Packed*Array types, Signal and Callable by reference, and
every other registered type by value; the by-value `to_ffi` produces an
independent clone of the value, and the by-reference `to_ffi` (like
`Variant`'s own `to_ffi`) produces a borrowing `RefArg` wrapper around the
existing value. -/
theorem passing_convention_registry :
    ((registered_types.filter (fun e => e.snd == ArgPassing.byRef)).map Prod.fst =
      ["GString", "StringName", "NodePath", "Dictionary", "PackedByteArray",
       "PackedInt32Array", "PackedInt64Array", "PackedFloat32Array",
       "PackedFloat64Array", "PackedStringArray", "PackedVector2Array",
       "PackedVector3Array", "PackedVector4Array", "PackedColorArray",
       "Signal", "Callable"]) ∧
    (∀ (α : Type) (v : α), MacroImpl.to_ffi ArgPassing.byValue v = ToFfiRepr.cloned v) ∧
    (∀ (α : Type) (v : α), MacroImpl.to_ffi ArgPassing.byRef v = ToFfiRepr.refArg v) ∧
    (∀ v : Variant, VariantImpl.to_ffi v = ToFfiRepr.refArg v) :=
  ⟨rfl, fun _ _ => rfl, fun _ _ => rfl, fun _ => rfl⟩

/-- C7: for every registered type and every Variant whose tag equals the
type's designated tag, re-encoding the successfully decoded value restores
the original Variant in both tag and content, given the spec's trust
boundary on the native pair. -/
theorem reencode_decoded (tag : VariantType) (p : NativePair α)
    (h : NativePairSpec tag p) (w : Variant) (hw : w.get_type = tag) :
    (MacroImpl.ffi_from_variant tag p w).map (MacroImpl.ffi_to_variant p) = .ok w := by
  simp [MacroImpl.ffi_from_variant, MacroImpl.ffi_to_variant, Except.map, hw,
    h.encode_decode w hw]

theorem reencode_decoded_witness :
    (NativePairSpec .bool boolPair ∧ (⟨.bool, true⟩ : Variant).get_type = .bool) ∧
      (MacroImpl.ffi_from_variant .bool boolPair ⟨.bool, true⟩).map
        (MacroImpl.ffi_to_variant boolPair) = .ok ⟨.bool, true⟩ :=
  ⟨⟨boolPair_spec, rfl⟩, reencode_decoded .bool boolPair boolPair_spec ⟨.bool, true⟩ rfl⟩

/-- C8: the wildcard property descriptor carries the wildcard's designated
tag, the given property name, no hint metadata, and usage
`DEFAULT | NIL_IS_VARIANT`; the nil-acceptance bit is present in the
wildcard descriptor and absent from the default descriptor used by typed
slots. -/
theorem wildcard_property_descriptor (name : String) (tag : VariantType)
    (cls nm : String) :
    (Variant.property_info name).variant_type = variantSelfVariantType ∧
    (Variant.property_info name).property_name = name ∧
    (Variant.property_info name).hint_info = PropertyHintInfo.no_hint ∧
    (Variant.property_info name).usage =
      (PropertyUsageFlags.DEFAULT ||| PropertyUsageFlags.NIL_IS_VARIANT) ∧
    (Variant.property_info name).usage &&& PropertyUsageFlags.NIL_IS_VARIANT ≠ 0 ∧
    (GodotType.default_property_info tag cls nm).usage &&&
      PropertyUsageFlags.NIL_IS_VARIANT = 0 :=
  ⟨rfl, rfl, rfl, rfl,
    by
      show (PropertyUsageFlags.DEFAULT ||| PropertyUsageFlags.NIL_IS_VARIANT) &&&
        PropertyUsageFlags.NIL_IS_VARIANT ≠ 0
      decide,
    by
      show PropertyUsageFlags.DEFAULT &&& PropertyUsageFlags.NIL_IS_VARIANT = 0
      decide⟩

/-- C9: for every type implemented in this file, `into_ffi` is the identity
(respectively the unit value) and `try_from_ffi` always returns `Ok`, so
`try_from_ffi (into_ffi v) = Ok v` and this path can never produce a
`ConvertError`. -/
theorem infallible_ffi_repr_path :
    (∀ (α : Type) (v : α), MacroImpl.into_ffi v = v ∧
        MacroImpl.try_from_ffi (MacroImpl.into_ffi v) = .ok v) ∧
    (∀ u : Unit, UnitImpl.into_ffi u = () ∧
        UnitImpl.try_from_ffi (UnitImpl.into_ffi u) = .ok u) ∧
    (∀ v : Variant, VariantImpl.into_ffi v = v ∧
        VariantImpl.try_from_ffi (VariantImpl.into_ffi v) = .ok v) :=
  ⟨fun _ _ => ⟨rfl, rfl⟩, fun _ => ⟨rfl, rfl⟩, fun _ => ⟨rfl, rfl⟩⟩

/-- C10: the unit type's `godot_type_name` is the string "Variant", identical
to the wildcard Variant type's name, even though unit encodes to a
NIL-tagged Variant. -/
theorem unit_type_name_is_variant :
    UnitImpl.godot_type_name = "Variant" ∧
    VariantImpl.godot_type_name = "Variant" ∧
    UnitImpl.godot_type_name = VariantImpl.godot_type_name ∧
    (UnitImpl.ffi_to_variant ()).get_type = .nil :=
  ⟨rfl, rfl, rfl, rfl⟩

end GodotVariant
